import Mathlib

set_option maxHeartbeats 1000000

/-!
Shallow embedding of the attitude-estimation module
(flight/Modules/Attitude/revolution/attitude.c) of the TauLabs flight
controller, together with theorems settling the frozen claims about it.

Modelling conventions:
- C float arithmetic is embedded as exact rational arithmetic (for the
  sensor-aggregation / task-loop side, which is purely rational) and as real
  arithmetic (for the complementary filter, which uses sqrt and pi).
- The two FIFO drain loops of updateSensors busy-wait until a read succeeds
  and there is no timeout; a cycle in which the FIFO never yields a sample
  never returns.  This nontermination is modelled by an Option result:
  none stands for the non-terminating busy-wait, some r for a normal return.
  The sequence of successful ReadFifo results of a cycle is the input list.
- File-scope mutable variables (q, gyro_correct_int, accelKp, accelKi,
  yawBiasRate, init, lastSysTime) become explicit state records threaded
  through the step functions.
- The UAVObject publish/subscribe bus is modelled by fields of the task
  state holding the last value set for each object (AttitudeRaw,
  AttitudeActual) plus the alarm flag.
- The barometric block of updateSensors (lines 308-329) only updates the
  BaroAltitude object and affects neither the return value, nor the raw
  sample, nor the bias state; no claim depends on it and it is not modelled.
-/

/-- Triple of values, used for 3-axis sensor data and the bias integral. -/
structure V3 (α : Type) where
  x : α
  y : α
  z : α
deriving DecidableEq, Repr

/-- The AttitudeRaw UAVObject payload: accels and gyros in physical units,
magnetometers, and the two die temperatures (attituderaw.h fields used by
attitude.c). -/
structure AttitudeRawData where
  accels : V3 ℚ
  gyros : V3 ℚ
  magnetometers : V3 ℚ
  temperatureGyro : ℚ
  temperatureAccel : ℚ
deriving DecidableEq, Repr

/-- The AttitudeActual UAVObject payload (quaternion plus roll/pitch/yaw). -/
structure AttitudeActualData where
  q1 : ℚ
  q2 : ℚ
  q3 : ℚ
  q4 : ℚ
  roll : ℚ
  pitch : ℚ
  yaw : ℚ
deriving DecidableEq, Repr

/-- The file-scope variable `raw` (attitude.c line 217).  It is a C static
of type AttitudeRawData, hence zero-initialized, and no statement in the
translation unit ever writes to it; it is only passed to AttitudeRawSet at
line 306. -/
def rawVar : AttitudeRawData :=
  { accels := ⟨0, 0, 0⟩
    gyros := ⟨0, 0, 0⟩
    magnetometers := ⟨0, 0, 0⟩
    temperatureGyro := 0
    temperatureAccel := 0 }

/-- Configuration read by updateSensors: the bias_correct_gyro flag and the
current value of the file-scope yawBiasRate. -/
structure SensorConfig where
  biasCorrectGyro : Bool
  yawBiasRate : ℚ
deriving DecidableEq, Repr

/-- Environment of one updateSensors invocation: the successive successful
FIFO reads of each sensor this cycle (raw integer register values), the
driver scale factors, the raw die temperatures of the structs after the
drains, and the magnetometer reading when PIOS_HMC5883_NewDataAvailable. -/
structure SensorInputs where
  accelFifo : List (V3 ℤ)
  gyroFifo : List (V3 ℤ)
  accelScale : ℚ
  gyroScale : ℚ
  accelTemperature : ℤ
  gyroTemperature : ℤ
  magData : Option (V3 ℤ)
deriving DecidableEq, Repr

/-- Result of a terminating updateSensors call: the populated record left in
the caller's attitudeRaw, the new gyro_correct_int, the value passed to the
mid-cycle AttitudeRawSet at line 306, and the C return value. -/
structure SensorResult where
  attitudeRaw : AttitudeRawData
  gyroCorrectInt : V3 ℚ
  midPublish : AttitudeRawData
  retval : ℤ
deriving DecidableEq, Repr

/-- Per-axis accumulation of the drained FIFO entries (the accel_accum and
gyro_accum sums of lines 245-247 and 267-269). -/
def accumulate (l : List (V3 ℤ)) : V3 ℤ :=
  l.foldl (fun a s => ⟨a.x + s.x, a.y + s.y, a.z + s.z⟩) ⟨0, 0, 0⟩

/-- The FIFO drain of lines 240-251 (and 261-273): first busy-wait until a
read succeeds, then accumulate every successful read until one fails.  Every
successful read is accumulated exactly once, so a terminating drain yields
the number of available entries and their per-axis sums; with zero entries
ever available the first loop never exits, modelled as none. -/
def drainFifo (l : List (V3 ℤ)) : Option (ℕ × V3 ℤ) :=
  match l with
  | [] => none
  | _ :: _ => some (l.length, accumulate l)

/-- Lines 227-331 of attitude.c without the barometric block: drain and
average both FIFOs, scale, permute gyro axes, convert temperatures, apply
the bias integral to the published gyros when bias_correct_gyro, apply the
yaw self-zeroing bias update, read the magnetometer when fresh data is
available, publish the file-scope variable `raw`, and return 0. -/
def updateSensors (cfg : SensorConfig) (gyroCorrectInt : V3 ℚ)
    (attitudeRaw0 : AttitudeRawData) (inp : SensorInputs) :
    Option SensorResult :=
  match drainFifo inp.accelFifo, drainFifo inp.gyroFifo with
  | some (accelSamples, accelAccum), some (gyroSamples, gyroAccum) =>
    let ascaling : ℚ := inp.accelScale / (accelSamples : ℚ)
    let accels : V3 ℚ :=
      ⟨(accelAccum.x : ℚ) * ascaling, (accelAccum.y : ℚ) * ascaling,
        (accelAccum.z : ℚ) * ascaling⟩
    let gscaling : ℚ := inp.gyroScale / (gyroSamples : ℚ)
    let gyros0 : V3 ℚ :=
      ⟨-(gyroAccum.y : ℚ) * gscaling, -(gyroAccum.x : ℚ) * gscaling,
        -(gyroAccum.z : ℚ) * gscaling⟩
    let temperatureGyro : ℚ := 35 + ((inp.gyroTemperature : ℚ) + 13200) / 280
    let temperatureAccel : ℚ := 25 + ((inp.accelTemperature : ℚ) - 2) / 2
    let gyros : V3 ℚ :=
      if cfg.biasCorrectGyro then
        ⟨gyros0.x + gyroCorrectInt.x, gyros0.y + gyroCorrectInt.y,
          gyros0.z + gyroCorrectInt.z⟩
      else gyros0
    let bias : V3 ℚ :=
      ⟨gyroCorrectInt.x, gyroCorrectInt.y,
        gyroCorrectInt.z + -gyros.z * cfg.yawBiasRate⟩
    let mags : V3 ℚ :=
      match inp.magData with
      | some v => ⟨-(v.x : ℚ), -(v.y : ℚ), -(v.z : ℚ)⟩
      | none => attitudeRaw0.magnetometers
    some
      { attitudeRaw :=
          { accels := accels
            gyros := gyros
            magnetometers := mags
            temperatureGyro := temperatureGyro
            temperatureAccel := temperatureAccel }
        gyroCorrectInt := bias
        midPublish := rawVar
        retval := 0 }
  | _, _ => none

/-- The AttitudeSettings fields read by the task loop and the settings
callback. -/
structure AttitudeSettingsData where
  accelKp : ℚ
  accelKi : ℚ
  yawBiasRate : ℚ
  zeroDuringArming : Bool
  biasCorrectGyro : Bool
deriving DecidableEq, Repr

/-- The file-scope gain variables together with the local init flag of
AttitudeTask (uint8 0/1 modelled as Bool). -/
structure GainState where
  accelKp : ℚ
  accelKi : ℚ
  yawBiasRate : ℚ
  init : Bool
deriving DecidableEq, Repr

/-- Lines 175-193 of AttitudeTask: during ticks 1000 < t < 7000 force the
convergence gains and clear init; likewise while zero_during_arming and the
vehicle is in the ARMING state; otherwise, when init is clear, reload the
gains from AttitudeSettings and set init. -/
def gainSchedule (tick : ℕ) (armedArming : Bool)
    (settings : AttitudeSettingsData) (s : GainState) : GainState :=
  if tick < 7000 ∧ 1000 < tick then
    { accelKp := 1, accelKi := 9/10, yawBiasRate := 23/100, init := false }
  else if settings.zeroDuringArming ∧ armedArming then
    { accelKp := 1, accelKi := 9/10, yawBiasRate := 23/100, init := false }
  else if s.init = false then
    { accelKp := settings.accelKp, accelKi := settings.accelKi,
      yawBiasRate := settings.yawBiasRate, init := true }
  else s

/-- State carried by the task loop across cycles: the gain state, the
gyro_correct_int bias integral, the last values set on the AttitudeRaw and
AttitudeActual objects, and whether the attitude alarm is raised. -/
structure TaskState where
  gains : GainState
  gyroCorrectInt : V3 ℚ
  attitudeRawObj : AttitudeRawData
  attitudeActualObj : AttitudeActualData
  alarmError : Bool
deriving DecidableEq, Repr

/-- Inputs of one task-loop cycle: the tick count, whether FlightStatus is
in the ARMING state, the current settings snapshot, and the sensor
environment. -/
structure CycleInputs where
  tick : ℕ
  armedArming : Bool
  settings : AttitudeSettingsData
  sensors : SensorInputs
deriving DecidableEq, Repr

/-- One iteration of the main loop of AttitudeTask (lines 170-209): gain
scheduling, AttitudeRawGet into a local, updateSensors on it, then either
raise the alarm (non-zero return) or publish the populated record and clear
the alarm.  The updateAttitude call at line 203 is commented out in the
source, so AttitudeActual is never written by the loop.  A none result
models the cycle never completing (FIFO busy-wait). -/
def cycleStep (s : TaskState) (inp : CycleInputs) : Option TaskState :=
  let g := gainSchedule inp.tick inp.armedArming inp.settings s.gains
  let attitudeRaw := s.attitudeRawObj
  match updateSensors ⟨inp.settings.biasCorrectGyro, g.yawBiasRate⟩
      s.gyroCorrectInt attitudeRaw inp.sensors with
  | none => none
  | some r =>
    if r.retval ≠ 0 then
      some
        { gains := g
          gyroCorrectInt := r.gyroCorrectInt
          attitudeRawObj := r.midPublish
          attitudeActualObj := s.attitudeActualObj
          alarmError := true }
    else
      some
        { gains := g
          gyroCorrectInt := r.gyroCorrectInt
          attitudeRawObj := r.attitudeRaw
          attitudeActualObj := s.attitudeActualObj
          alarmError := false }

/-- The dT computation of updateAttitude lines 336-341: when the tick count
has not advanced, substitute the minimum step 0.001 s; otherwise take the
unsigned 32-bit tick difference (portMAX_DELAY masks to 32 bits) divided by
portTICK_RATE_MS and by 1000.  portTICK_RATE_MS comes from the FreeRTOS
configuration headers, which are outside this repository; it is kept as the
positive parameter tickRateMs. -/
def computeDT (thisTick lastTick : ℕ) (tickRateMs : ℚ) : ℚ :=
  if thisTick = lastTick then 1/1000
  else (((thisTick + 2 ^ 32 - lastTick) % 2 ^ 32 : ℕ) : ℚ) / tickRateMs / 1000

/-- Quaternion state of the complementary filter (the file-scope float q[4]). -/
structure QuatR where
  q0 : ℝ
  q1 : ℝ
  q2 : ℝ
  q3 : ℝ

/-- Gains read by updateAttitude (the file-scope accelKp and accelKi). -/
structure FilterGains where
  accelKp : ℝ
  accelKi : ℝ

/-- Mutable state of updateAttitude: the quaternion, the gyro_correct_int
bias integral, and the static lastSysTime tick. -/
structure FilterState where
  q : QuatR
  gyroCorrectInt : V3 ℝ
  lastSysTime : ℕ

/-- Inputs of one updateAttitude invocation: the accels and gyros fields of
the attitudeRaw record and the current tick count. -/
structure FilterInputs where
  accels : V3 ℝ
  gyros : V3 ℝ
  thisTick : ℕ

/-- Modelled from the spec: CrossProduct of CoordinateConversions.c is not
part of this repository snapshot; the spec describes the tilt error as the
cross product of the measured accelerometer vector and the body-frame
gravity direction, so the standard cross product is used. -/
noncomputable def CrossProduct (a b : V3 ℝ) : V3 ℝ :=
  ⟨a.y * b.z - a.z * b.y, a.z * b.x - a.x * b.z, a.x * b.y - a.y * b.x⟩

/-- Body-frame gravity direction implied by the quaternion, lines 355-357. -/
noncomputable def gravityBody (q : QuatR) : V3 ℝ :=
  ⟨-(2 * (q.q1 * q.q3 - q.q0 * q.q2)),
    -(2 * (q.q2 * q.q3 + q.q0 * q.q1)),
    -(q.q0 * q.q0 - q.q1 * q.q1 - q.q2 * q.q2 + q.q3 * q.q3)⟩

/-- Tilt error of lines 358-364: cross product of the accels with the
body-frame gravity, divided componentwise by the accel magnitude. -/
noncomputable def accelError (q : QuatR) (accels : V3 ℝ) : V3 ℝ :=
  let e := CrossProduct accels (gravityBody q)
  let accelMag := Real.sqrt
    (accels.x * accels.x + accels.y * accels.y + accels.z * accels.z)
  ⟨e.x / accelMag, e.y / accelMag, e.z / accelMag⟩

/-- Integral feedback of lines 367-368: the x and y components of the bias
integral accumulate the scaled tilt error; the z component is untouched
here (its update lives in updateSensors). -/
noncomputable def integralFeedback (ki : ℝ) (bias : V3 ℝ) (q : QuatR)
    (accels : V3 ℝ) : V3 ℝ :=
  let e := accelError q accels
  ⟨bias.x + e.x * ki, bias.y + e.y * ki, bias.z⟩

/-- Proportional feedback of lines 373-375: the measured rates corrected by
the tilt error scaled by Kp and divided by dT. -/
noncomputable def correctedGyro (kp dT : ℝ) (gyros : V3 ℝ) (q : QuatR)
    (accels : V3 ℝ) : V3 ℝ :=
  let e := accelError q accels
  ⟨gyros.x + e.x * kp / dT, gyros.y + e.y * kp / dT,
    gyros.z + e.z * kp / dT⟩

/-- First-order integration of the quaternion kinematic equation,
lines 381-391: qdot from the corrected rates (deg/s converted to rad/s,
scaled by dT/2) added to the current quaternion. -/
noncomputable def quatIntegrate (q : QuatR) (gyro : V3 ℝ) (dT : ℝ) : QuatR :=
  let c := dT * Real.pi / 180 / 2
  ⟨q.q0 + (-q.q1 * gyro.x - q.q2 * gyro.y - q.q3 * gyro.z) * c,
    q.q1 + (q.q0 * gyro.x - q.q3 * gyro.y + q.q2 * gyro.z) * c,
    q.q2 + (q.q3 * gyro.x + q.q0 * gyro.y - q.q1 * gyro.z) * c,
    q.q3 + (-q.q2 * gyro.x + q.q1 * gyro.y + q.q0 * gyro.z) * c⟩

/-- Sign canonicalization of lines 393-398: negate the whole quaternion
when its scalar part is negative. -/
noncomputable def signFix (q : QuatR) : QuatR :=
  if q.q0 < 0 then ⟨-q.q0, -q.q1, -q.q2, -q.q3⟩ else q

/-- Euclidean norm of the quaternion as computed at line 402. -/
noncomputable def quatMag (q : QuatR) : ℝ :=
  Real.sqrt (q.q0 * q.q0 + q.q1 * q.q1 + q.q2 * q.q2 + q.q3 * q.q3)

/-- Renormalization and divergence recovery of lines 401-415: divide by the
norm, then, when the norm is below 1e-3, reset to the identity quaternion.
The qmag-is-NaN disjunct of line 410 has no counterpart in real arithmetic
and is dropped. -/
noncomputable def normalizeReset (q : QuatR) : QuatR :=
  let qmag := quatMag q
  let qn : QuatR := ⟨q.q0 / qmag, q.q1 / qmag, q.q2 / qmag, q.q3 / qmag⟩
  if |qmag| < 1/1000 then ⟨1, 0, 0, 0⟩ else qn

/-- The quaternion after the integration step and the sign fix, i.e. the
value whose norm the divergence check of line 410 inspects. -/
noncomputable def postIntegrationQuat (gains : FilterGains) (tickRateMs : ℚ)
    (s : FilterState) (inp : FilterInputs) : QuatR :=
  let dT : ℝ := ((computeDT inp.thisTick s.lastSysTime tickRateMs : ℚ) : ℝ)
  signFix (quatIntegrate s.q
    (correctedGyro gains.accelKp dT inp.gyros s.q inp.accels) dT)

/-- Lines 334-426 of attitude.c as a state transformer: compute dT from the
tick counts, run the tilt-error feedback, integrate, canonicalize the sign,
renormalize with divergence recovery, and record the tick.  The final
Quaternion2RPY conversion and the AttitudeActual publication live outside
this repository snapshot and carry no state of the filter itself. -/
noncomputable def updateAttitude (gains : FilterGains) (tickRateMs : ℚ)
    (s : FilterState) (inp : FilterInputs) : FilterState :=
  { q := normalizeReset (postIntegrationQuat gains tickRateMs s inp)
    gyroCorrectInt :=
      integralFeedback gains.accelKi s.gyroCorrectInt s.q inp.accels
    lastSysTime := inp.thisTick }

lemma foldl_accum (l : List (V3 ℤ)) (a : V3 ℤ) :
    l.foldl (fun a s => ⟨a.x + s.x, a.y + s.y, a.z + s.z⟩) a =
      ⟨a.x + (l.map V3.x).sum, a.y + (l.map V3.y).sum,
        a.z + (l.map V3.z).sum⟩ := by
  induction l generalizing a with
  | nil => simp
  | cons h t ih =>
    rw [List.foldl_cons, ih]
    simp only [List.map_cons, List.sum_cons, V3.mk.injEq]
    refine ⟨by ring, by ring, by ring⟩

lemma accumulate_eq (l : List (V3 ℤ)) :
    accumulate l =
      ⟨(l.map V3.x).sum, (l.map V3.y).sum, (l.map V3.z).sum⟩ := by
  simpa [accumulate] using foldl_accum l ⟨0, 0, 0⟩

/-- Claim C1 (code_bug): the claim states that on every fault-free cycle the
Complementary Filter update runs and AttitudeActual is set.  In the source
the call updateAttitude(&attitudeRaw) at line 203 is commented out, while
the file header (lines 6-7, 35) documents that the module updates
AttitudeActual: every completing cycle, faulting or not, leaves the
AttitudeActual object unchanged. -/
theorem claim_c1_code_bug (s : TaskState) (inp : CycleInputs) (r : TaskState)
    (h : cycleStep s inp = some r) :
    r.attitudeActualObj = s.attitudeActualObj := by
  simp only [cycleStep] at h
  cases hu : updateSensors ⟨inp.settings.biasCorrectGyro,
      (gainSchedule inp.tick inp.armedArming inp.settings s.gains).yawBiasRate⟩
      s.gyroCorrectInt s.attitudeRawObj inp.sensors with
  | none => rw [hu] at h; exact absurd h (by simp)
  | some v =>
    rw [hu] at h
    by_cases hv : v.retval ≠ 0 <;> simp [hv] at h <;> rw [← h]

/-- Witness for C1: a concrete fault-free cycle that publishes the raw
sample and clears the alarm yet leaves AttitudeActual untouched. -/
theorem claim_c1_code_bug_witness :
    cycleStep ⟨⟨0, 0, 0, true⟩, ⟨0, 0, 0⟩, rawVar, ⟨5, 5, 5, 5, 0, 0, 0⟩, true⟩
        ⟨0, false, ⟨0, 0, 0, false, false⟩,
          ⟨[⟨0, 0, 0⟩], [⟨0, 0, 0⟩], 1, 1, 2, -13200, none⟩⟩ =
      some ⟨⟨0, 0, 0, true⟩, ⟨0, 0, 0⟩,
        ⟨⟨0, 0, 0⟩, ⟨0, 0, 0⟩, ⟨0, 0, 0⟩, 35, 25⟩, ⟨5, 5, 5, 5, 0, 0, 0⟩,
        false⟩ ∧
    (⟨⟨0, 0, 0, true⟩, ⟨0, 0, 0⟩,
        ⟨⟨0, 0, 0⟩, ⟨0, 0, 0⟩, ⟨0, 0, 0⟩, 35, 25⟩, ⟨5, 5, 5, 5, 0, 0, 0⟩,
        false⟩ : TaskState).attitudeActualObj =
      (⟨⟨0, 0, 0, true⟩, ⟨0, 0, 0⟩, rawVar, ⟨5, 5, 5, 5, 0, 0, 0⟩,
        true⟩ : TaskState).attitudeActualObj := by
  have h : cycleStep
      ⟨⟨0, 0, 0, true⟩, ⟨0, 0, 0⟩, rawVar, ⟨5, 5, 5, 5, 0, 0, 0⟩, true⟩
      ⟨0, false, ⟨0, 0, 0, false, false⟩,
        ⟨[⟨0, 0, 0⟩], [⟨0, 0, 0⟩], 1, 1, 2, -13200, none⟩⟩ =
      some ⟨⟨0, 0, 0, true⟩, ⟨0, 0, 0⟩,
        ⟨⟨0, 0, 0⟩, ⟨0, 0, 0⟩, ⟨0, 0, 0⟩, 35, 25⟩, ⟨5, 5, 5, 5, 0, 0, 0⟩,
        false⟩ := by
    norm_num [cycleStep, updateSensors, drainFifo, accumulate, gainSchedule,
      rawVar]
  exact ⟨h, claim_c1_code_bug _ _ _ h⟩

/-- Claim C2 counterexample: with zero accelerometer FIFO entries
available, updateSensors does not return a sensor fault; it never returns
at all (the busy-wait drain, modelled as none), and when the FIFOs do yield
data the return value is 0, so no cycle ever takes the fault branch. -/
theorem claim_c2_counterexample :
    updateSensors ⟨true, 23/100⟩ ⟨0, 0, 0⟩ rawVar
        ⟨[], [⟨0, 0, 0⟩], 1, 1, 0, 0, none⟩ = none ∧
    (updateSensors ⟨true, 23/100⟩ ⟨0, 0, 0⟩ rawVar
        ⟨[⟨0, 0, 0⟩], [⟨0, 0, 0⟩], 1, 1, 0, 0, none⟩).map SensorResult.retval =
      some 0 := by
  constructor
  · rfl
  · norm_num [updateSensors, drainFifo, accumulate]

/-- Claim C2 (amended): when zero FIFO entries are ever available for the
accelerometer or the gyroscope, updateSensors never returns (busy-wait,
modelled as none) instead of returning a fault; whenever both FIFOs yield
at least one entry it returns 0 (success) and the task loop publishes the
populated raw sample and clears the attitude alarm.  The alarm-raising,
publication-skipping fault path of the claim exists in the task loop but is
unreachable because updateSensors has no failure return. -/
theorem claim_c2_amended (cfg : SensorConfig) (bias : V3 ℚ)
    (prev : AttitudeRawData) (inp : SensorInputs) (s : TaskState) (tick : ℕ)
    (armed : Bool) (settings : AttitudeSettingsData)
    (ha : inp.accelFifo ≠ []) (hg : inp.gyroFifo ≠ []) :
    updateSensors cfg bias prev { inp with accelFifo := [] } = none ∧
    updateSensors cfg bias prev { inp with gyroFifo := [] } = none ∧
    (∃ r, updateSensors cfg bias prev inp = some r ∧ r.retval = 0) ∧
    ∃ s', cycleStep s ⟨tick, armed, settings, inp⟩ = some s' ∧
      s'.alarmError = false := by
  obtain ⟨a0, al, hA⟩ := List.exists_cons_of_ne_nil ha
  obtain ⟨g0, gl, hG⟩ := List.exists_cons_of_ne_nil hg
  refine ⟨by simp [updateSensors, drainFifo], ?_, ?_, ?_⟩
  · simp [updateSensors, drainFifo, hA]
  · simp only [updateSensors, drainFifo, hA, hG]
    exact ⟨_, rfl, rfl⟩
  · simp only [cycleStep, updateSensors, drainFifo, hA, hG]
    norm_num

/-- Witness for the amended C2 at concrete FIFO contents. -/
theorem claim_c2_amended_witness :
    ([⟨1, 2, 3⟩] : List (V3 ℤ)) ≠ [] ∧ ([⟨4, 5, 6⟩] : List (V3 ℤ)) ≠ [] ∧
    (updateSensors ⟨false, 1⟩ ⟨0, 0, 0⟩ rawVar
        { accelFifo := ([] : List (V3 ℤ)), gyroFifo := [⟨4, 5, 6⟩],
          accelScale := 1, gyroScale := 1, accelTemperature := 0,
          gyroTemperature := 0, magData := none } = none ∧
      updateSensors ⟨false, 1⟩ ⟨0, 0, 0⟩ rawVar
        { accelFifo := [⟨1, 2, 3⟩], gyroFifo := ([] : List (V3 ℤ)),
          accelScale := 1, gyroScale := 1, accelTemperature := 0,
          gyroTemperature := 0, magData := none } = none ∧
      (∃ r, updateSensors ⟨false, 1⟩ ⟨0, 0, 0⟩ rawVar
          ⟨[⟨1, 2, 3⟩], [⟨4, 5, 6⟩], 1, 1, 0, 0, none⟩ = some r ∧
          r.retval = 0) ∧
      ∃ s', cycleStep ⟨⟨0, 0, 0, true⟩, ⟨0, 0, 0⟩, rawVar,
          ⟨1, 0, 0, 0, 0, 0, 0⟩, false⟩
          ⟨0, false, ⟨0, 0, 0, false, false⟩,
            ⟨[⟨1, 2, 3⟩], [⟨4, 5, 6⟩], 1, 1, 0, 0, none⟩⟩ = some s' ∧
        s'.alarmError = false) := by
  refine ⟨by simp, by simp, ?_⟩
  have h := claim_c2_amended ⟨false, 1⟩ ⟨0, 0, 0⟩ rawVar
    ⟨[⟨1, 2, 3⟩], [⟨4, 5, 6⟩], 1, 1, 0, 0, none⟩
    ⟨⟨0, 0, 0, true⟩, ⟨0, 0, 0⟩, rawVar, ⟨1, 0, 0, 0, 0, 0, 0⟩, false⟩
    0 false ⟨0, 0, 0, false, false⟩ (by simp) (by simp)
  exact h

/-- Claim C5 counterexample: with bias_correct_gyro enabled, bias_z = 100,
yaw_bias_rate = 1 and a zero raw averaged z gyro reading, the claim
predicts the new bias_z to be 100 + -0 * 1 = 100, but the code updates the
integral from the bias-corrected published reading and yields 0. -/
theorem claim_c5_counterexample :
    (updateSensors ⟨true, 1⟩ ⟨0, 0, 100⟩ rawVar
        ⟨[⟨0, 0, 0⟩], [⟨0, 0, 0⟩], 1, 1, 0, 0, none⟩).map
        (fun r => r.gyroCorrectInt.z) = some 0 ∧
    (100 : ℚ) + -0 * 1 = 100 ∧ (0 : ℚ) ≠ 100 := by
  refine ⟨?_, by norm_num, by norm_num⟩
  norm_num [updateSensors, drainFifo, accumulate]

/-- Claim C5 (amended): each cycle only the z component of the gyro bias
integral changes, by bias_z += -gyro_z_published * yaw_bias_rate, where
gyro_z_published is the averaged scaled z reading plus the current bias_z
when bias_correct_gyro is enabled (the raw reading exactly when the flag is
disabled); the update is independent of the accelerometer data. -/
theorem claim_c5_amended (cfg : SensorConfig) (bias : V3 ℚ)
    (prev : AttitudeRawData) (inp : SensorInputs) (r : SensorResult)
    (h : updateSensors cfg bias prev inp = some r) :
    r.gyroCorrectInt.z = bias.z + -r.attitudeRaw.gyros.z * cfg.yawBiasRate ∧
    r.gyroCorrectInt.x = bias.x ∧ r.gyroCorrectInt.y = bias.y ∧
    ∀ a : List (V3 ℤ), a ≠ [] →
      (updateSensors cfg bias prev { inp with accelFifo := a }).map
        SensorResult.gyroCorrectInt = some r.gyroCorrectInt := by
  have ha : inp.accelFifo ≠ [] := by
    intro hA; simp [updateSensors, drainFifo, hA] at h
  have hg : inp.gyroFifo ≠ [] := by
    intro hG; obtain ⟨a0, al, hA⟩ := List.exists_cons_of_ne_nil ha
    simp [updateSensors, drainFifo, hA, hG] at h
  obtain ⟨a0, al, hA⟩ := List.exists_cons_of_ne_nil ha
  obtain ⟨g0, gl, hG⟩ := List.exists_cons_of_ne_nil hg
  simp only [updateSensors, drainFifo, hA, hG, Option.some.injEq] at h
  subst h
  refine ⟨rfl, rfl, rfl, ?_⟩
  intro a hA'
  obtain ⟨b0, bl, hB⟩ := List.exists_cons_of_ne_nil hA'
  simp only [updateSensors, drainFifo, hB, hG]
  rfl

/-- Witness for the amended C5 at concrete sensor data. -/
theorem claim_c5_amended_witness :
    (updateSensors ⟨true, 2⟩ ⟨7, 8, 9⟩ rawVar
        ⟨[⟨1, 1, 1⟩], [⟨0, 0, 10⟩], 1, 1, 0, 0, none⟩ =
      some ⟨⟨⟨1, 1, 1⟩, ⟨7, 8, -1⟩, ⟨0, 0, 0⟩, 35 + 13200/280, 24⟩,
        ⟨7, 8, 11⟩, rawVar, 0⟩) ∧
    ((11 : ℚ) = 9 + -(-1) * 2 ∧ (7 : ℚ) = 7 ∧ (8 : ℚ) = 8 ∧
      ∀ a : List (V3 ℤ), a ≠ [] →
        (updateSensors ⟨true, 2⟩ ⟨7, 8, 9⟩ rawVar
            { accelFifo := a, gyroFifo := [⟨0, 0, 10⟩], accelScale := 1,
              gyroScale := 1, accelTemperature := 0, gyroTemperature := 0,
              magData := none }).map SensorResult.gyroCorrectInt =
          some ⟨7, 8, 11⟩) := by
  have h : updateSensors ⟨true, 2⟩ ⟨7, 8, 9⟩ rawVar
      ⟨[⟨1, 1, 1⟩], [⟨0, 0, 10⟩], 1, 1, 0, 0, none⟩ =
      some ⟨⟨⟨1, 1, 1⟩, ⟨7, 8, -1⟩, ⟨0, 0, 0⟩, 35 + 13200/280, 24⟩,
        ⟨7, 8, 11⟩, rawVar, 0⟩ := by
    norm_num [updateSensors, drainFifo, accumulate, rawVar]
  have hc := claim_c5_amended ⟨true, 2⟩ ⟨7, 8, 9⟩ rawVar
    ⟨[⟨1, 1, 1⟩], [⟨0, 0, 10⟩], 1, 1, 0, 0, none⟩ _ h
  exact ⟨h, hc⟩

/-- Claim C6: for tick counts t with 1000 < t < 7000 the gains are forced
to Kp = 1, Ki = 0.9, yaw-bias-rate = 0.23 regardless of configuration;
likewise whenever zero-during-arming is enabled and the vehicle is in the
arming transition; for t at or above 7000 without the arming condition the
gains are loaded from the configuration exactly once (when the init flag is
clear, which also sets the flag) and later steady-state cycles leave the
gain state untouched without re-reading the configuration. -/
theorem claim_c6 (tick : ℕ) (armed : Bool) (settings : AttitudeSettingsData)
    (s : GainState) :
    (1000 < tick → tick < 7000 →
      gainSchedule tick armed settings s =
        ⟨1, 9/10, 23/100, false⟩) ∧
    (settings.zeroDuringArming = true → armed = true →
      gainSchedule tick armed settings s =
        ⟨1, 9/10, 23/100, false⟩) ∧
    (7000 ≤ tick → ¬(settings.zeroDuringArming = true ∧ armed = true) →
      gainSchedule tick armed settings s =
        if s.init then s
        else ⟨settings.accelKp, settings.accelKi, settings.yawBiasRate,
          true⟩) := by
  unfold gainSchedule
  refine ⟨fun h1 h2 => by simp [h1, h2], fun h1 h2 => ?_, fun h1 h2 => ?_⟩
  · split_ifs with hw <;> simp_all
  · have hw : ¬(tick < 7000 ∧ 1000 < tick) := by omega
    rw [if_neg hw, if_neg h2]
    rcases hi : s.init with _ | _ <;> simp [hi]

/-- Witness for C6: the forced convergence gains at tick 2000, the
one-time configuration load at tick 8000, and an untouched gain state on a
later steady-state cycle. -/
theorem claim_c6_witness :
    gainSchedule 2000 false ⟨7, 8, 9, false, false⟩ ⟨0, 0, 0, true⟩ =
      ⟨1, 9/10, 23/100, false⟩ ∧
    gainSchedule 8000 false ⟨7, 8, 9, false, false⟩ ⟨0, 0, 0, false⟩ =
      ⟨7, 8, 9, true⟩ ∧
    gainSchedule 8000 false ⟨7, 8, 9, false, false⟩ ⟨4, 5, 6, true⟩ =
      ⟨4, 5, 6, true⟩ := by
  refine ⟨(claim_c6 2000 false _ _).1 (by norm_num) (by norm_num), ?_, ?_⟩
  · have h := (claim_c6 8000 false ⟨7, 8, 9, false, false⟩
      ⟨0, 0, 0, false⟩).2.2 (by norm_num) (by simp)
    simpa using h
  · have h := (claim_c6 8000 false ⟨7, 8, 9, false, false⟩
      ⟨4, 5, 6, true⟩).2.2 (by norm_num) (by simp)
    simpa using h

/-- Claim C7: the dT computed by updateAttitude is strictly positive for
all 32-bit tick counts and any positive tick rate, and equals the minimum
nominal step 0.001 s exactly when the tick count has not advanced, so the
proportional correction division by dT never divides by zero. -/
theorem claim_c7 (thisTick lastTick : ℕ) (tickRateMs : ℚ)
    (h1 : thisTick < 2 ^ 32) (h2 : lastTick < 2 ^ 32) (hr : 0 < tickRateMs) :
    0 < computeDT thisTick lastTick tickRateMs ∧
    (thisTick = lastTick →
      computeDT thisTick lastTick tickRateMs = 1/1000) := by
  constructor
  · unfold computeDT
    by_cases heq : thisTick = lastTick
    · simp [heq]
    · have hd : (thisTick + 2 ^ 32 - lastTick) % 2 ^ 32 ≠ 0 := by omega
      have hd' : (0 : ℚ) < (((thisTick + 2 ^ 32 - lastTick) % 2 ^ 32 : ℕ) : ℚ) := by
        exact_mod_cast Nat.pos_of_ne_zero hd
      simp only [heq, if_false]
      positivity
  · intro heq; simp [computeDT, heq]

/-- Witness for C7 at concrete tick counts 5 and 3. -/
theorem claim_c7_witness :
    (5 : ℕ) < 2 ^ 32 ∧ (3 : ℕ) < 2 ^ 32 ∧ (0 : ℚ) < 1 ∧
    0 < computeDT 5 3 1 ∧ (5 = 3 → computeDT 5 3 1 = 1/1000) := by
  refine ⟨by norm_num, by norm_num, by norm_num, ?_⟩
  exact claim_c7 5 3 1 (by norm_num) (by norm_num) (by norm_num)

/-- Claim C8: on every terminating updateSensors call, each published
accelerometer axis equals the per-axis sum of the drained FIFO entries
divided by their number and multiplied by the driver scale factor
(drain-then-average semantics). -/
theorem claim_c8 (cfg : SensorConfig) (bias : V3 ℚ) (prev : AttitudeRawData)
    (inp : SensorInputs) (r : SensorResult)
    (h : updateSensors cfg bias prev inp = some r) :
    r.attitudeRaw.accels.x =
      ((inp.accelFifo.map V3.x).sum : ℚ) / (inp.accelFifo.length : ℚ) *
        inp.accelScale ∧
    r.attitudeRaw.accels.y =
      ((inp.accelFifo.map V3.y).sum : ℚ) / (inp.accelFifo.length : ℚ) *
        inp.accelScale ∧
    r.attitudeRaw.accels.z =
      ((inp.accelFifo.map V3.z).sum : ℚ) / (inp.accelFifo.length : ℚ) *
        inp.accelScale := by
  have ha : inp.accelFifo ≠ [] := by
    intro hA; simp [updateSensors, drainFifo, hA] at h
  have hg : inp.gyroFifo ≠ [] := by
    intro hG; obtain ⟨a0, al, hA⟩ := List.exists_cons_of_ne_nil ha
    simp [updateSensors, drainFifo, hA, hG] at h
  obtain ⟨a0, al, hA⟩ := List.exists_cons_of_ne_nil ha
  obtain ⟨g0, gl, hG⟩ := List.exists_cons_of_ne_nil hg
  simp only [updateSensors, drainFifo, hA, hG, Option.some.injEq] at h
  subst h
  rw [hA]
  simp only [accumulate_eq]
  refine ⟨?_, ?_, ?_⟩ <;> push_cast <;> ring

/-- Witness for C8: two buffered samples with sums (4,6,8) and scale 6
publish (12,18,24). -/
theorem claim_c8_witness :
    updateSensors ⟨false, 0⟩ ⟨0, 0, 0⟩ rawVar
        ⟨[⟨1, 2, 3⟩, ⟨3, 4, 5⟩], [⟨0, 0, 0⟩], 6, 1, 2, -13200, none⟩ =
      some ⟨⟨⟨12, 18, 24⟩, ⟨0, 0, 0⟩, ⟨0, 0, 0⟩, 35, 25⟩, ⟨0, 0, 0⟩,
        rawVar, 0⟩ ∧
    ((12 : ℚ) = ((4 : ℚ)) / 2 * 6 ∧ (18 : ℚ) = ((6 : ℚ)) / 2 * 6 ∧
      (24 : ℚ) = ((8 : ℚ)) / 2 * 6) := by
  have h : updateSensors ⟨false, 0⟩ ⟨0, 0, 0⟩ rawVar
      ⟨[⟨1, 2, 3⟩, ⟨3, 4, 5⟩], [⟨0, 0, 0⟩], 6, 1, 2, -13200, none⟩ =
      some ⟨⟨⟨12, 18, 24⟩, ⟨0, 0, 0⟩, ⟨0, 0, 0⟩, 35, 25⟩, ⟨0, 0, 0⟩,
        rawVar, 0⟩ := by
    norm_num [updateSensors, drainFifo, accumulate, rawVar]
  have hc := claim_c8 ⟨false, 0⟩ ⟨0, 0, 0⟩ rawVar
    ⟨[⟨1, 2, 3⟩, ⟨3, 4, 5⟩], [⟨0, 0, 0⟩], 6, 1, 2, -13200, none⟩ _ h
  refine ⟨h, ?_⟩
  simpa using hc

/-- Claim C9: every terminating updateSensors call publishes, via the
mid-cycle AttitudeRawSet at line 306, the never-written zero-initialized
file-scope record raw, independent of the sensor values read that cycle;
the populated record is published separately by the task loop on success. -/
theorem claim_c9 (cfg : SensorConfig) (bias : V3 ℚ) (prev : AttitudeRawData)
    (inp : SensorInputs) (r : SensorResult)
    (h : updateSensors cfg bias prev inp = some r) :
    r.midPublish =
      ⟨⟨0, 0, 0⟩, ⟨0, 0, 0⟩, ⟨0, 0, 0⟩, 0, 0⟩ := by
  have ha : inp.accelFifo ≠ [] := by
    intro hA; simp [updateSensors, drainFifo, hA] at h
  have hg : inp.gyroFifo ≠ [] := by
    intro hG; obtain ⟨a0, al, hA⟩ := List.exists_cons_of_ne_nil ha
    simp [updateSensors, drainFifo, hA, hG] at h
  obtain ⟨a0, al, hA⟩ := List.exists_cons_of_ne_nil ha
  obtain ⟨g0, gl, hG⟩ := List.exists_cons_of_ne_nil hg
  simp only [updateSensors, drainFifo, hA, hG, Option.some.injEq] at h
  subst h
  rfl

/-- Witness for C9 at concrete sensor data, including fresh magnetometer
data, whose mid-cycle publication is still the zero record. -/
theorem claim_c9_witness :
    (updateSensors ⟨true, 5⟩ ⟨1, 2, 3⟩ rawVar
        ⟨[⟨9, 9, 9⟩], [⟨1, 1, 1⟩], 2, 2, 0, 0, some ⟨1, 2, 3⟩⟩).map
        SensorResult.midPublish =
      some ⟨⟨0, 0, 0⟩, ⟨0, 0, 0⟩, ⟨0, 0, 0⟩, 0, 0⟩ := by
  have h : updateSensors ⟨true, 5⟩ ⟨1, 2, 3⟩ rawVar
      ⟨[⟨9, 9, 9⟩], [⟨1, 1, 1⟩], 2, 2, 0, 0, some ⟨1, 2, 3⟩⟩ =
      some ⟨⟨⟨18, 18, 18⟩, ⟨-1, 0, 1⟩, ⟨-1, -2, -3⟩, 35 + 13200/280,
        24⟩, ⟨1, 2, 3 + -1 * 5⟩, rawVar, 0⟩ := by
    norm_num [updateSensors, drainFifo, accumulate, rawVar]
  rw [h, Option.map_some']
  exact congrArg some (claim_c9 ⟨true, 5⟩ ⟨1, 2, 3⟩ rawVar
    ⟨[⟨9, 9, 9⟩], [⟨1, 1, 1⟩], 2, 2, 0, 0, some ⟨1, 2, 3⟩⟩ _ h)

lemma signFix_q0_nonneg (q : QuatR) : 0 ≤ (signFix q).q0 := by
  unfold signFix
  split_ifs with h
  · show 0 ≤ -q.q0
    linarith
  · exact not_lt.mp h

lemma quatMag_nonneg (q : QuatR) : 0 ≤ quatMag q := Real.sqrt_nonneg _

lemma normalizeReset_reset (q : QuatR) (h : quatMag q < 1/1000) :
    normalizeReset q = ⟨1, 0, 0, 0⟩ := by
  have habs : |quatMag q| < 1/1000 := by
    rwa [abs_of_nonneg (quatMag_nonneg q)]
  simp only [normalizeReset]
  rw [if_pos habs]

lemma normalizeReset_mag (q : QuatR) : quatMag (normalizeReset q) = 1 := by
  simp only [normalizeReset]
  by_cases hc : |quatMag q| < 1/1000
  · rw [if_pos hc]
    unfold quatMag
    norm_num
  · rw [if_neg hc]
    have h0 : 0 ≤ quatMag q := quatMag_nonneg q
    have hpos : 0 < quatMag q := by
      have := not_lt.mp hc
      rw [abs_of_nonneg h0] at this
      linarith
    have hSpos : 0 < q.q0 * q.q0 + q.q1 * q.q1 + q.q2 * q.q2 + q.q3 * q.q3 :=
      Real.sqrt_pos.mp hpos
    unfold quatMag at hpos ⊢
    show Real.sqrt (q.q0 / Real.sqrt (q.q0 * q.q0 + q.q1 * q.q1 + q.q2 * q.q2 + q.q3 * q.q3) *
        (q.q0 / Real.sqrt (q.q0 * q.q0 + q.q1 * q.q1 + q.q2 * q.q2 + q.q3 * q.q3)) +
      q.q1 / Real.sqrt (q.q0 * q.q0 + q.q1 * q.q1 + q.q2 * q.q2 + q.q3 * q.q3) *
        (q.q1 / Real.sqrt (q.q0 * q.q0 + q.q1 * q.q1 + q.q2 * q.q2 + q.q3 * q.q3)) +
      q.q2 / Real.sqrt (q.q0 * q.q0 + q.q1 * q.q1 + q.q2 * q.q2 + q.q3 * q.q3) *
        (q.q2 / Real.sqrt (q.q0 * q.q0 + q.q1 * q.q1 + q.q2 * q.q2 + q.q3 * q.q3)) +
      q.q3 / Real.sqrt (q.q0 * q.q0 + q.q1 * q.q1 + q.q2 * q.q2 + q.q3 * q.q3) *
        (q.q3 / Real.sqrt (q.q0 * q.q0 + q.q1 * q.q1 + q.q2 * q.q2 + q.q3 * q.q3))) = 1
    rw [div_mul_div_comm, div_mul_div_comm, div_mul_div_comm, div_mul_div_comm,
      div_add_div_same, div_add_div_same, div_add_div_same,
      Real.mul_self_sqrt (le_of_lt hSpos), div_self (ne_of_gt hSpos),
      Real.sqrt_one]

lemma normalizeReset_q0 (q : QuatR) (h : 0 ≤ q.q0) :
    0 ≤ (normalizeReset q).q0 := by
  simp only [normalizeReset]
  split_ifs
  · norm_num
  · exact div_nonneg h (quatMag_nonneg q)

lemma postIntegrationQuat_q0_nonneg (gains : FilterGains) (tickRateMs : ℚ)
    (s : FilterState) (inp : FilterInputs) :
    0 ≤ (postIntegrationQuat gains tickRateMs s inp).q0 := by
  simp only [postIntegrationQuat]
  exact signFix_q0_nonneg _

/-- Claim C3: after every invocation of the filter update the stored
quaternion has Euclidean norm exactly 1 (hence within the 1e-5 tolerance)
and nonnegative scalar part; since the prior state is arbitrary, this holds
after every call of every update sequence started from the identity
quaternion. -/
theorem claim_c3 (gains : FilterGains) (tickRateMs : ℚ) (s : FilterState)
    (inp : FilterInputs) :
    |quatMag ((updateAttitude gains tickRateMs s inp).q) - 1| ≤ 1/100000 ∧
    0 ≤ ((updateAttitude gains tickRateMs s inp).q).q0 := by
  constructor
  · have hm : quatMag ((updateAttitude gains tickRateMs s inp).q) = 1 :=
      normalizeReset_mag _
    rw [hm]
    norm_num
  · exact normalizeReset_q0 _ (postIntegrationQuat_q0_nonneg _ _ _ _)

/-- Claim C4: when the post-integration quaternion norm falls below 1e-3,
the quaternion after that update is exactly the identity (1,0,0,0),
regardless of the gyro and accelerometer inputs of the update.  The
NaN disjunct of the source condition has no counterpart in exact real
arithmetic. -/
theorem claim_c4 (gains : FilterGains) (tickRateMs : ℚ) (s : FilterState)
    (inp : FilterInputs)
    (h : quatMag (postIntegrationQuat gains tickRateMs s inp) < 1/1000) :
    (updateAttitude gains tickRateMs s inp).q = ⟨1, 0, 0, 0⟩ :=
  normalizeReset_reset _ h

/-- Witness for C4: from the all-zero quaternion state the integration
step keeps norm 0, triggering the reset. -/
theorem claim_c4_witness :
    quatMag (postIntegrationQuat ⟨2, 3⟩ 1 ⟨⟨0, 0, 0, 0⟩, ⟨0, 0, 0⟩, 5⟩
        ⟨⟨0, 0, -1⟩, ⟨7, 8, 9⟩, 5⟩) < 1/1000 ∧
    (updateAttitude ⟨2, 3⟩ 1 ⟨⟨0, 0, 0, 0⟩, ⟨0, 0, 0⟩, 5⟩
        ⟨⟨0, 0, -1⟩, ⟨7, 8, 9⟩, 5⟩).q = ⟨1, 0, 0, 0⟩ := by
  have hmag : quatMag (postIntegrationQuat ⟨2, 3⟩ 1 ⟨⟨0, 0, 0, 0⟩, ⟨0, 0, 0⟩, 5⟩
      ⟨⟨0, 0, -1⟩, ⟨7, 8, 9⟩, 5⟩) < 1/1000 := by
    norm_num [postIntegrationQuat, quatIntegrate, correctedGyro, accelError,
      CrossProduct, gravityBody, signFix, quatMag, computeDT, Real.sqrt_zero]
  exact ⟨hmag, claim_c4 _ _ _ _ hmag⟩

/-- Claim C10: when the divergence check triggers, only the quaternion is
reset to the identity; the gyro bias integral keeps exactly the values this
update gave it (x and y advanced by the integral feedback, z untouched) and
lastSysTime is still advanced, so the recovery is not atomic over the whole
filter state. -/
theorem claim_c10 (gains : FilterGains) (tickRateMs : ℚ) (s : FilterState)
    (inp : FilterInputs)
    (h : quatMag (postIntegrationQuat gains tickRateMs s inp) < 1/1000) :
    (updateAttitude gains tickRateMs s inp).q = ⟨1, 0, 0, 0⟩ ∧
    (updateAttitude gains tickRateMs s inp).gyroCorrectInt =
      ⟨s.gyroCorrectInt.x + (accelError s.q inp.accels).x * gains.accelKi,
        s.gyroCorrectInt.y + (accelError s.q inp.accels).y * gains.accelKi,
        s.gyroCorrectInt.z⟩ ∧
    (updateAttitude gains tickRateMs s inp).lastSysTime = inp.thisTick := by
  refine ⟨normalizeReset_reset _ h, ?_, rfl⟩
  show integralFeedback gains.accelKi s.gyroCorrectInt s.q inp.accels = _
  simp only [integralFeedback]

/-- Witness for C10: a tiny non-zero quaternion state with zero gyro
input keeps its sub-threshold norm, triggering the reset while the bias
integral y component moves by the integral feedback amount. -/
theorem claim_c10_witness :
    quatMag (postIntegrationQuat ⟨0, 1⟩ 1
        ⟨⟨0, 1/10000, 0, 0⟩, ⟨2, 3, 5⟩, 0⟩ ⟨⟨1, 0, 0⟩, ⟨0, 0, 0⟩, 0⟩) <
      1/1000 ∧
    ((updateAttitude ⟨0, 1⟩ 1 ⟨⟨0, 1/10000, 0, 0⟩, ⟨2, 3, 5⟩, 0⟩
        ⟨⟨1, 0, 0⟩, ⟨0, 0, 0⟩, 0⟩).q = ⟨1, 0, 0, 0⟩ ∧
      (updateAttitude ⟨0, 1⟩ 1 ⟨⟨0, 1/10000, 0, 0⟩, ⟨2, 3, 5⟩, 0⟩
          ⟨⟨1, 0, 0⟩, ⟨0, 0, 0⟩, 0⟩).gyroCorrectInt =
        ⟨2 + (accelError ⟨0, 1/10000, 0, 0⟩ ⟨1, 0, 0⟩).x * 1,
          3 + (accelError ⟨0, 1/10000, 0, 0⟩ ⟨1, 0, 0⟩).y * 1, 5⟩ ∧
      (updateAttitude ⟨0, 1⟩ 1 ⟨⟨0, 1/10000, 0, 0⟩, ⟨2, 3, 5⟩, 0⟩
          ⟨⟨1, 0, 0⟩, ⟨0, 0, 0⟩, 0⟩).lastSysTime = 0) := by
  have hmag : quatMag (postIntegrationQuat ⟨0, 1⟩ 1
      ⟨⟨0, 1/10000, 0, 0⟩, ⟨2, 3, 5⟩, 0⟩ ⟨⟨1, 0, 0⟩, ⟨0, 0, 0⟩, 0⟩) <
      1/1000 := by
    norm_num [postIntegrationQuat, quatIntegrate, correctedGyro, accelError,
      CrossProduct, gravityBody, signFix, quatMag, computeDT, Real.sqrt_one]
    have hs : Real.sqrt 100000000 = 10000 := by
      rw [show (100000000 : ℝ) = 10000 ^ 2 by norm_num,
        Real.sqrt_sq (by norm_num)]
    rw [hs]
    norm_num
  exact ⟨hmag, claim_c10 _ _ _ _ hmag⟩
